import Mathlib

/-!
Verification of the tool-execution-platform backend (FastAPI service in
`backend/app`).  The definitions below are a shallow embedding of the
Python source: each `def` is translated from the named source function.
Machine-level aspects that the claims do not touch (logging, CORS, the
actual PIL/qrcode codecs) are abstracted as parameters; everything the
claims depend on (control flow, string manipulation, dict handling,
error classification) is transcribed directly.
-/

namespace ToolPlatform

/-- Python runtime values crossing the tool boundary.  `pyObj tag` stands
for an opaque Python object (e.g. a PIL image) that is not
JSON-serializable. -/
inductive PyVal where
  | pyStr (s : String)
  | pyInt (n : Int)
  | pyList (xs : List PyVal)
  | pyTuple (xs : List PyVal)
  | pyDict (kvs : List (String × PyVal))
  | pyObj (tag : String)
deriving Repr

mutual

/-- Whether a value survives JSON serialization (FastAPI's JSON encoder):
strings, ints, lists/tuples of serializable values and string-keyed dicts
with serializable values are serializable; opaque objects are not. -/
def jsonCompatible : PyVal → Bool
  | .pyStr _ => true
  | .pyInt _ => true
  | .pyList xs => jsonCompatibleList xs
  | .pyTuple xs => jsonCompatibleList xs
  | .pyDict kvs => jsonCompatibleKvs kvs
  | .pyObj _ => false

/-- All elements of a list are JSON-serializable. -/
def jsonCompatibleList : List PyVal → Bool
  | [] => true
  | x :: xs => jsonCompatible x && jsonCompatibleList xs

/-- All values of a dict are JSON-serializable. -/
def jsonCompatibleKvs : List (String × PyVal) → Bool
  | [] => true
  | kv :: kvs => jsonCompatible kv.2 && jsonCompatibleKvs kvs

end

/-! ### Python dict model

The keyword-argument mapping built by the `run_tool` route
(`routes_tools.py`) is a Python dict; we model it as an association list
with dict semantics: assignment replaces in place or appends, `pop`
removes the key, `in` is key membership, lookup returns the first (and in
a dict: only) binding. -/

/-- The keyword-argument mapping (`input_data` in `run_tool`). -/
abbrev Kwargs := List (String × PyVal)

/-- Model of `key in d` for a Python dict. -/
def dContains : Kwargs → String → Bool
  | [], _ => false
  | p :: m, k => if p.1 = k then true else dContains m k

/-- Model of `d[key]` lookup (the binding of the key; dict keys are unique). -/
def dGet : Kwargs → String → Option PyVal
  | [], _ => none
  | p :: m, k => if p.1 = k then some p.2 else dGet m k

/-- Model of `d[key] = v`: replace the key's binding in place if the key exists,
otherwise append it (Python dicts preserve insertion order). -/
def dSet : Kwargs → String → PyVal → Kwargs
  | [], k, v => [(k, v)]
  | p :: m, k, v => if p.1 = k then (k, v) :: m else p :: dSet m k v

/-- Model of `d.pop(key)`'s removal effect: drop the key's binding (a dict holds
each key at most once). -/
def dErase : Kwargs → String → Kwargs
  | [], _ => []
  | p :: m, k => if p.1 = k then dErase m k else p :: dErase m k

/-! ### Exceptions and their transport mapping

`core/exceptions.py` defines `ToolExecutionException` and its subclasses
`ToolNotFoundException`, `InvalidInputException`, `FileProcessingException`
(and `ToolValidationException`, unused by the routes).  We model the
classified failure of a request with one constructor per class, plus
`unexpected` for a plain Python exception that matches none of them. -/

/-- The classified error kinds raised inside the service. -/
inductive ToolErr where
  | notFound (message : String)
  | invalidInput (message : String)
  | fileProcessing (message : String)
  | toolExecution (message : String)
  | unexpected (message : String)
deriving Repr, DecidableEq

/-- Transport mapping of a classified error to (status code, detail), as
performed by the except clauses of `run_tool` (routes_tools.py, lines
145-156) and by `tool_not_found_handler` (main.py, lines 79-86).  The
Python except clauses list the subclasses before `ToolExecutionException`,
so each kind gets its own branch; a `ToolErr.unexpected` falls into the
bare `except Exception` clause with the fixed generic detail. -/
def classify_run_error : ToolErr → Nat × String
  | .notFound m => (404, m)
  | .invalidInput m => (400, m)
  | .fileProcessing m => (400, m)
  | .toolExecution m => (500, m)
  | .unexpected _ => (500, "Tool execution failed")

/-! ### Configuration (`core/config.py`) -/

/-- The fields of `Settings` that the verified code paths read.  The
defaults mirror `config.py`; values are external configuration. -/
structure Settings where
  MAX_FILE_SIZE : Nat
  TEMP_DIR : String
  ALLOWED_IMAGE_FORMATS : List String
deriving Repr

/-- The default configuration instance (`settings = Settings()`). -/
def defaultSettings : Settings :=
  { MAX_FILE_SIZE := 10 * 1024 * 1024
    TEMP_DIR := "/tmp/tool-execution"
    ALLOWED_IMAGE_FORMATS := ["png", "jpg", "jpeg", "webp", "gif", "bmp"] }

/-! ### File service (`services/file_service.py`) -/

/-- Characters kept by `re.sub(r'[^\w\-.]', '', filename)`: word
characters (ASCII letters, digits, underscore), hyphen and dot.  (Python's
`\w` also matches non-ASCII word characters; the claims only involve
ASCII inputs.) -/
def safeChar (c : Char) : Bool :=
  c.isAlphanum || c = '_' || c = '-' || c = '.'

/-- Model of `filename.replace("..", "")`: remove the non-overlapping occurrences
of `".."`, scanning left to right exactly as `str.replace` does. -/
def removeDotDot : List Char → List Char
  | c1 :: c2 :: rest =>
      if c1 = '.' ∧ c2 = '.' then removeDotDot rest
      else c1 :: removeDotDot (c2 :: rest)
  | s => s

/-- Model of `FileService.clean_filename`: reject the empty name, strip `\` and
`/` (the two single-character `replace` calls), strip `".."`, keep only
safe characters, and reject a name with nothing left. -/
def clean_filename (filename : String) : Except ToolErr String :=
  if filename = "" then
    .error (.fileProcessing "Filename cannot be empty")
  else
    let noBack := filename.data.filter (fun c => c ≠ '\\')
    let noSep := noBack.filter (fun c => c ≠ '/')
    let noDots := removeDotDot noSep
    let safe := String.mk (noDots.filter safeChar)
    if safe = "" then
      .error (.fileProcessing "Filename contains no valid characters")
    else
      .ok safe

/-- The message of the oversize error.  (`file_service.py` interpolates
`MAX_FILE_SIZE / (1024*1024)` as a Python float, e.g. `10.0`; we render
the same quantity with natural division, which does not affect any
claim.) -/
def fileSizeExceededMessage (st : Settings) : String :=
  "File size exceeds maximum of " ++ toString (st.MAX_FILE_SIZE / (1024 * 1024)) ++ "MB"

/-- Model of `FileService.validate_file_size`: fail iff the size strictly exceeds
the configured maximum. -/
def validate_file_size (st : Settings) (file_size : Nat) : Except ToolErr Unit :=
  if file_size > st.MAX_FILE_SIZE then
    .error (.fileProcessing (fileSizeExceededMessage st))
  else
    .ok ()

/-- The filesystem, as the map path ↦ byte content, modelled as an
association list with at most one entry per path. -/
abbrev Fs := List (String × List Nat)

/-- Model of `Path.write_bytes`: create the file or truncate and overwrite an
existing one; every other path is untouched. -/
def fsWrite : Fs → String → List Nat → Fs
  | [], path, content => [(path, content)]
  | q :: fs, path, content =>
      if q.1 = path then (path, content) :: fs else q :: fsWrite fs path content

/-- Read a path's content, `none` when no such file exists. -/
def fsRead : Fs → String → Option (List Nat)
  | [], _ => none
  | q :: fs, path => if q.1 = path then some q.2 else fsRead fs path

/-- Model of `FileService.save_uploaded_file`: validate the size, clean the name,
join the (optional) subfolder onto the temp dir, and write the bytes at
`save_dir / clean_name`.  Returns the saved path together with the
filesystem after the write.  (`mkdir` and a failing write raise
`FileProcessingException`; directory creation is not observable in the
path-level model and the claims quantify over successful writes.) -/
def save_uploaded_file (st : Settings) (fs : Fs) (file_content : List Nat)
    (original_filename : String) (subfolder : Option String) :
    Except ToolErr (String × Fs) :=
  match validate_file_size st file_content.length with
  | .error e => .error e
  | .ok _ =>
      match clean_filename original_filename with
      | .error e => .error e
      | .ok clean_name =>
          let save_dir := match subfolder with
            | some sub => st.TEMP_DIR ++ "/" ++ sub
            | none => st.TEMP_DIR
          let file_path := save_dir ++ "/" ++ clean_name
          .ok (file_path, fsWrite fs file_path file_content)

/-- Model of `FileService.generate_output_path`: tool-specific output directory,
cleaned base name, optional extension (a leading dot added when
missing).  Pure path computation, no write. -/
def generate_output_path (st : Settings) (tool_name : String)
    (filename : String) (extension : Option String) :
    Except ToolErr (String × String) := do
  let clean_name ← clean_filename filename
  let filename_with_ext := match extension with
    | some ext =>
        if ext.startsWith "." then clean_name ++ ext else clean_name ++ "." ++ ext
    | none => clean_name
  let output_path := st.TEMP_DIR ++ "/" ++ tool_name ++ "/" ++ filename_with_ext
  .ok (output_path, filename_with_ext)

/-! ### Tools and the registry (`core/base_tool.py`, `core/tool_registry.py`)

A tool's static metadata (`BaseTool`'s class attributes).  The tool
bodies (`run`) perform codec I/O and are modelled separately where a
claim needs them. -/

/-- The descriptor attributes every `BaseTool` subclass defines. -/
structure ToolDef where
  name : String
  description : String
  version : String
  output_type : String
  input_schema : PyVal
deriving Repr

/-- Model of `BaseTool.get_metadata`: the dict returned to the metadata
endpoints, with the keys in the order the source writes them. -/
def get_metadata (t : ToolDef) : PyVal :=
  .pyDict
    [ ("name", .pyStr t.name)
    , ("description", .pyStr t.description)
    , ("version", .pyStr t.version)
    , ("input_schema", t.input_schema)
    , ("output_type", .pyStr t.output_type) ]

/-- Model of `QRGeneratorTool`'s class attributes (`tools/qr_generator/tool.py`). -/
def qrGeneratorTool : ToolDef :=
  { name := "qr-generator"
    description := "Generate a QR code from text data"
    version := "1.0.0"
    output_type := "file"
    input_schema := .pyDict
      [ ("type", .pyStr "object")
      , ("properties", .pyDict
          [ ("data", .pyDict
              [ ("type", .pyStr "string")
              , ("description", .pyStr "Data to encode in QR code")
              , ("minLength", .pyInt 1)
              , ("maxLength", .pyInt 2953)
              , ("example", .pyStr "https://example.com") ]) ])
      , ("required", .pyList [.pyStr "data"]) ] }

/-- Model of `ImageConverterTool`'s class attributes (`tools/image_converter/tool.py`). -/
def imageConverterTool : ToolDef :=
  { name := "image-converter"
    description := "Convert images between different formats"
    version := "1.0.0"
    output_type := "file"
    input_schema := .pyDict
      [ ("type", .pyStr "object")
      , ("properties", .pyDict
          [ ("image_file_path", .pyDict
              [ ("type", .pyStr "file")
              , ("description", .pyStr "Input image file (injected by API)") ])
          , ("target_format", .pyDict
              [ ("type", .pyStr "string")
              , ("description", .pyStr "Target image format")
              , ("enum", .pyList
                  [.pyStr "png", .pyStr "jpg", .pyStr "jpeg",
                   .pyStr "webp", .pyStr "gif", .pyStr "bmp"])
              , ("example", .pyStr "png") ])
          , ("quality", .pyDict
              [ ("type", .pyStr "integer")
              , ("description", .pyStr "Quality for lossy formats (1-100)")
              , ("minimum", .pyInt 1)
              , ("maximum", .pyInt 100)
              , ("default", .pyInt 85) ]) ])
      , ("required", .pyList [.pyStr "image_file_path", .pyStr "target_format"]) ] }

/-- Model of `ImageCompressorTool`'s class attributes (`tools/image_compressor/tool.py`). -/
def imageCompressorTool : ToolDef :=
  { name := "image-compressor"
    description := "Compress images to reduce file size while maintaining quality"
    version := "1.0.0"
    output_type := "file"
    input_schema := .pyDict
      [ ("type", .pyStr "object")
      , ("properties", .pyDict
          [ ("image_file_path", .pyDict
              [ ("type", .pyStr "file")
              , ("description", .pyStr "Input Image file (injected by API)") ])
          , ("quality", .pyDict
              [ ("type", .pyStr "integer")
              , ("description", .pyStr "Quality for lossy formats (1-100)")
              , ("minimum", .pyInt 1)
              , ("maximum", .pyInt 100)
              , ("default", .pyInt 85) ]) ])
      , ("required", .pyList [.pyStr "image_file_path"]) ] }

/-- The registry dict `TOOLS` (`core/tool_registry.py`), in insertion
order.  It is a module-level constant: no function in the repository
assigns to it after construction, so the embedding carries it as an
immutable value. -/
def TOOLS : List (String × ToolDef) :=
  [ ("qr-generator", qrGeneratorTool)
  , ("image-converter", imageConverterTool)
  , ("image-compressor", imageCompressorTool) ]

/-- Model of `tool_exists`: dict membership in `TOOLS`. -/
def tool_exists (tool_name : String) : Bool :=
  (List.find? (fun p => p.1 = tool_name) TOOLS).isSome

/-- Model of `get_tool`: dict lookup, raising `KeyError("Tool '…' not found")`
when the name is absent. -/
def get_tool (tool_name : String) : Except String ToolDef :=
  match List.find? (fun p => p.1 = tool_name) TOOLS with
  | some p => .ok p.2
  | none => .error ("Tool '" ++ tool_name ++ "' not found")

/-- Model of `list_tools`: metadata of every registered tool, in registry order. -/
def list_tools : List PyVal :=
  TOOLS.map (fun p => get_metadata p.2)

/-- The response of `GET /api/system/tools` (`routes_system.py`,
`list_all_tools`). -/
structure ToolsListResponse where
  tools : List PyVal
  count : Nat
deriving Repr

/-- Model of `list_all_tools`: `{"tools": tools, "count": len(tools)}`. -/
def list_all_tools : ToolsListResponse :=
  { tools := list_tools, count := list_tools.length }

/-- The `name` field of a metadata document. -/
def metaName (m : PyVal) : Option PyVal :=
  match m with
  | .pyDict kvs => (List.find? (fun p => p.1 = "name") kvs).map (fun p => p.2)
  | _ => none

/-! ### The run endpoint (`api/routes_tools.py`) -/

/-- Python's `str.lower` (for the ASCII strings the claims involve). -/
def pyLower (s : String) : String :=
  String.mk (s.data.map Char.toLower)

/-- Whether `pat` occurs as a contiguous subsequence of `s`. -/
def containsSeq (pat : List Char) : List Char → Bool
  | [] => pat.isEmpty
  | c :: rest => pat.isPrefixOf (c :: rest) || containsSeq pat rest

/-- Python's `sub in s` substring test on strings. -/
def pyIn (sub s : String) : Bool :=
  containsSeq sub.data s.data

/-- The `MEDIA_TYPES` table of `get_media_type_and_extension`. -/
def MEDIA_TYPES : List (String × String) :=
  [ (".png", "image/png")
  , (".jpg", "image/jpeg")
  , (".jpeg", "image/jpeg")
  , (".gif", "image/gif")
  , (".webp", "image/webp")
  , (".bmp", "image/bmp")
  , (".pdf", "application/pdf")
  , (".json", "application/json")
  , (".txt", "text/plain")
  , (".csv", "text/csv")
  , (".zip", "application/zip") ]

/-- Model of `PurePath(name).suffix` for a name without separators: the substring
from the last dot, provided that dot is neither the first nor the last
character; otherwise the empty string. -/
def pySuffix (name : String) : String :=
  let cs := name.data
  match cs.reverse.findIdx? (fun c => c = '.') with
  | none => ""
  | some j =>
      let i := cs.length - 1 - j
      if 0 < i ∧ i < cs.length - 1 then String.mk (cs.drop i) else ""

/-- Model of `get_media_type_and_extension`: lower-cased suffix looked up in the
table, defaulting to `application/octet-stream`. -/
def get_media_type_and_extension (filename : String) : String × String :=
  let extension := pyLower (pySuffix filename)
  let media_type :=
    ((List.find? (fun p => p.1 = extension) MEDIA_TYPES).map (fun p => p.2)).getD
      "application/octet-stream"
  (media_type, extension)

/-- A transport-level outcome of the run endpoint: a JSON success body, a
file response (path, filename, media type, extension headers), or an
error (status, detail). -/
inductive HttpOutcome where
  | jsonOk (body : PyVal)
  | fileOk (path filename media_type extension : String)
  | httpError (status : Nat) (detail : String)
deriving Repr

/-- The output-dispatch tail of `run_tool` (routes_tools.py, lines
158-190): JSON-kind results are wrapped as `{"data": result}`
unconditionally; FILE-kind results must be a 2-tuple, anything else is
the 500 "Invalid tool output" error; an unknown `output_type` is the 500
"Unknown output type" error.  (A 2-tuple whose components are not both
strings passes the isinstance/len check; `Path(filename)` then raises
`TypeError`, which escapes the route to the app-level bare-Exception
handler — modelled as its generic 500.) -/
def dispatch_output (output_type : String) (result : PyVal) : HttpOutcome :=
  if output_type = "json" then
    .jsonOk (.pyDict [("data", result)])
  else if output_type = "file" then
    match result with
    | .pyTuple [.pyStr file_path, .pyStr filename] =>
        let (media_type, extension) := get_media_type_and_extension filename
        .fileOk file_path filename media_type extension
    | .pyTuple [_, _] => .httpError 500 "An unexpected error occurred"
    | _ => .httpError 500 "Invalid tool output"
  else
    .httpError 500 "Unknown output type"

/-- Whether an outcome is an error response (as opposed to a JSON or
file success).  Used to state what the dispatcher raises and what it
silently passes through. -/
def isErrorOutcome (o : HttpOutcome) : Bool :=
  match o with
  | .httpError _ _ => true
  | _ => false

/-- Model of `isinstance(result, tuple) and len(result) == 2`. -/
def isPair2 (result : PyVal) : Bool :=
  match result with
  | .pyTuple [_, _] => true
  | _ => false

/-- One part of a multipart form: an uploaded file (its filename as
transmitted, possibly empty, and its bytes) or a plain form field. -/
inductive FormPart where
  | filePart (filename : String) (content : List Nat)
  | fieldPart (value : String)
deriving Repr, DecidableEq

/-- The request body as the route observes it after transport decoding:
a parsed JSON document (a dict, so a keyword mapping), a body
`request.json()` fails on, or a multipart form's parts in transmitted
order. -/
inductive ReqBody where
  | jsonBody (fields : Kwargs)
  | jsonMalformed
  | multipartBody (parts : List (String × FormPart))
deriving Repr

/-- An incoming request: declared content type plus body. -/
structure Request where
  content_type : String
  body : ReqBody

/-- The message carried by a classified error. -/
def toolErrMessage : ToolErr → String
  | .notFound m => m
  | .invalidInput m => m
  | .fileProcessing m => m
  | .toolExecution m => m
  | .unexpected m => m

/-- The multipart loop of `run_tool` (lines 100-118): file parts are
saved through the file service (an empty or missing filename falls back
to `"uploaded_file"`; a `FileProcessingException` becomes a 400) and
bound as `"<key>_file_path"`; other parts are bound verbatim. -/
def process_parts (st : Settings) (tool_name : String) :
    List (String × FormPart) → Kwargs → Fs → Except (Nat × String) (Kwargs × Fs)
  | [], acc, fs => .ok (acc, fs)
  | (key, .filePart filename content) :: rest, acc, fs =>
      let name := if filename = "" then "uploaded_file" else filename
      match save_uploaded_file st fs content name (some tool_name) with
      | .ok (path, fs2) =>
          process_parts st tool_name rest (dSet acc (key ++ "_file_path") (.pyStr path)) fs2
      | .error e => .error (400, toolErrMessage e)
  | (key, .fieldPart v) :: rest, acc, fs =>
      process_parts st tool_name rest (dSet acc key (.pyStr v)) fs

/-- The rename shim of `run_tool` (lines 120-124): if
`image_file_path` is absent but `file_file_path` is present, pop the
latter and bind its value as `image_file_path`. -/
def applyShim (m : Kwargs) : Kwargs :=
  if dContains m "image_file_path" then m
  else
    match dGet m "file_file_path" with
    | some v => dSet (dErase m "file_file_path") "image_file_path" v
    | none => m

/-- The input-parsing stage of `run_tool` (lines 87-137), selected by a
substring test on the Content-Type header.  A JSON parse failure is the
generic 400 "Failed to parse request"; any other declared encoding is the
fixed 400 naming the two accepted encodings. -/
def parse_input (st : Settings) (tool_name : String) (fs : Fs) (req : Request) :
    Except (Nat × String) (Kwargs × Fs) :=
  if pyIn "application/json" req.content_type then
    match req.body with
    | .jsonBody fields => .ok (fields, fs)
    | _ => .error (400, "Failed to parse request")
  else if pyIn "multipart/form-data" req.content_type then
    match req.body with
    | .multipartBody parts =>
        (process_parts st tool_name parts [] fs).map
          (fun r => (applyShim r.1, r.2))
    | _ => .error (400, "Failed to parse request")
  else
    .error (400, "Content-Type must be application/json or multipart/form-data")

/-- The whole `run_tool` route: existence check first (an unknown name
raises `ToolNotFoundException`, which `tool_not_found_handler` in
`main.py` maps to status 404 with the message), then input parsing, then
the tool's `run` (abstracted as `runImpl`, its classified failures mapped
by the route's except clauses), then output dispatch. -/
def run_tool_endpoint (st : Settings) (fs : Fs)
    (runImpl : ToolDef → Kwargs → Except ToolErr PyVal)
    (tool_name : String) (req : Request) : HttpOutcome :=
  if tool_exists tool_name = false then
    .httpError 404 ("Tool '" ++ tool_name ++ "' not found")
  else
    match get_tool tool_name with
    | .error _ => .httpError 500 "An unexpected error occurred"
    | .ok tool =>
        match parse_input st tool_name fs req with
        | .error (s, d) => .httpError s d
        | .ok (kwargs, _) =>
            match runImpl tool kwargs with
            | .error e =>
                let c := classify_run_error e
                .httpError c.1 c.2
            | .ok result => dispatch_output tool.output_type result

/-! ### Image converter (`tools/image_converter/logic.py`, `tool.py`)

The Pillow codec is an external collaborator; it is abstracted as an
oracle `ImageOps`.  Everything before the first codec call is transcribed
from the source. -/

/-- The Pillow operations `convert_image` invokes, over an abstract image
type, plus Python's per-process seeded string hash. -/
structure ImageOps (α : Type) where
  openImage : PyVal → Except String α
  mode : α → String
  flattenToWhite : α → α
  saveImage : α → String → String → Nat → Except String Unit
  pyhash : PyVal → Int

/-- Attribute access on a Python `str`, at the attributes `file` and
`filename` used by `convert_image` — `str` defines neither, so the access
raises `AttributeError` with this message (`str(e)` of the exception). -/
def strGetattr (_s attr : String) : Except String PyVal :=
  .error ("'str' object has no attribute '" ++ attr ++ "'")

/-- Model of `convert_image` (logic.py, lines 17-73).  `input_path` is the string
path its docstring declares and its only caller passes
(`ImageConverterTool.run` forwards the path bound by the route); the
source nevertheless evaluates `input_path.file` and
`input_path.filename`, modelled by `strGetattr`. -/
def convert_image {α : Type} (ops : ImageOps α) (st : Settings)
    (input_path : String) (target_format : String) (quality : Nat) :
    Except String (String × String) := do
  let fmt := pyLower target_format
  if (st.ALLOWED_IMAGE_FORMATS.contains fmt) = false then
    .error ("Format " ++ target_format ++ " not allowed")
  else do
    let stream ← strGetattr input_path "file"
    let image0 ← ops.openImage stream
    let image :=
      if (fmt = "jpg" ∨ fmt = "jpeg") ∧
          (ops.mode image0 = "RGBA" ∨ ops.mode image0 = "LA" ∨ ops.mode image0 = "P") then
        ops.flattenToWhite image0
      else image0
    let fnVal ← strGetattr input_path "filename"
    let output_name := "converted_" ++ toString (ops.pyhash fnVal % 10000000)
    match generate_output_path st "image_converter" output_name (some ("." ++ fmt)) with
    | .error e => .error (toolErrMessage e)
    | .ok (output_path, filename) => do
        let _ ← ops.saveImage image output_path fmt quality
        .ok (output_path, filename)

/-- The pydantic validation `ImageConverterInput(**kwargs)` performs
after `run` has popped `image_file_path`: `target_format` is required and
must match `^(png|jpg|jpeg|webp|gif|bmp)$`; `quality` defaults to 85 and
must lie in 1..100.  (The pydantic error texts are long; the embedding
keeps them schematic — no claim depends on their wording.) -/
def validate_converter_input (kwargs : Kwargs) : Except String (String × Nat) :=
  match dGet kwargs "target_format" with
  | some (.pyStr s) =>
      if ["png", "jpg", "jpeg", "webp", "gif", "bmp"].contains s then
        match dGet kwargs "quality" with
        | none => .ok (s, 85)
        | some (.pyInt q) =>
            if 1 ≤ q ∧ q ≤ 100 then .ok (s, q.toNat)
            else .error "quality out of range"
        | some _ => .error "quality must be an integer"
      else .error "target_format does not match the allowed pattern"
  | some _ => .error "target_format must be a string"
  | none => .error "target_format field required"

/-- Model of `ImageConverterTool.run` (tool.py, lines 52-96): pop
`image_file_path` (missing or empty → `ToolExecutionException`), validate
the remaining kwargs (failure → `InvalidInputException`), call
`convert_image`, and wrap any of its exceptions into
`ToolExecutionException("Failed to convert image: " + str(e))`.  A
non-string `image_file_path` value is unreachable from the route (which
always binds the saved path string) and is mapped to `unexpected`. -/
def image_converter_run {α : Type} (ops : ImageOps α) (st : Settings)
    (kwargs : Kwargs) : Except ToolErr PyVal :=
  match dGet kwargs "image_file_path" with
  | none => .error (.toolExecution "No image file provided")
  | some (.pyStr p) =>
      if p = "" then .error (.toolExecution "No image file provided")
      else
        let rest := dErase kwargs "image_file_path"
        match validate_converter_input rest with
        | .error m => .error (.invalidInput ("Invalid input: " ++ m))
        | .ok fq =>
            match convert_image ops st p fq.1 fq.2 with
            | .error e => .error (.toolExecution ("Failed to convert image: " ++ e))
            | .ok pf => .ok (.pyTuple [.pyStr pf.1, .pyStr pf.2])
  | some _ => .error (.unexpected "non-string image_file_path")

/-! ### QR generator (`tools/qr_generator/tool.py`) -/

/-- The wrapping `QRGeneratorTool.run` applies (tool.py, line 74) when
`generate_qr_code` raises: the `ToolExecutionException` message embeds
`str(e)` of the underlying exception. -/
def qr_failure_message (cause : String) : String :=
  "Failed to generate QR code: " ++ cause

/-! ## Helper lemmas -/

theorem dContains_dErase_self (m : Kwargs) (k : String) :
    dContains (dErase m k) k = false := by
  induction m with
  | nil => rfl
  | cons p m ih => by_cases hp : p.1 = k <;> simp [dErase, dContains, hp, ih]

theorem dContains_dErase_of_ne (m : Kwargs) (k k2 : String) (h : k2 ≠ k) :
    dContains (dErase m k) k2 = dContains m k2 := by
  induction m with
  | nil => rfl
  | cons p m ih =>
      by_cases hp : p.1 = k
      · have hp2 : ¬p.1 = k2 := by rw [hp]; exact fun hh => h hh.symm
        simp [dErase, dContains, hp, hp2, h, Ne.symm h, ih]
      · by_cases hp2 : p.1 = k2 <;> simp [dErase, dContains, hp, hp2, h, Ne.symm h, ih]

theorem dGet_dSet_self (m : Kwargs) (k : String) (v : PyVal) :
    dGet (dSet m k v) k = some v := by
  induction m with
  | nil => simp [dSet, dGet]
  | cons p m ih => by_cases hp : p.1 = k <;> simp [dSet, dGet, hp, ih]

theorem dContains_dSet_of_ne (m : Kwargs) (k k2 : String) (v : PyVal)
    (h : k2 ≠ k) : dContains (dSet m k v) k2 = dContains m k2 := by
  induction m with
  | nil => simp [dSet, dContains, h, Ne.symm h]
  | cons p m ih =>
      by_cases hp : p.1 = k
      · simp [dSet, dContains, hp, h, Ne.symm h]
      · by_cases hp2 : p.1 = k2 <;> simp [dSet, dContains, hp, hp2, h, Ne.symm h, ih]

theorem fsRead_fsWrite_self (fs : Fs) (p : String) (c : List Nat) :
    fsRead (fsWrite fs p c) p = some c := by
  induction fs with
  | nil => simp [fsWrite, fsRead]
  | cons q fs ih => by_cases hq : q.1 = p <;> simp [fsWrite, fsRead, hq, ih]

theorem fsRead_fsWrite_other (fs : Fs) (p q : String) (c : List Nat) (h : q ≠ p) :
    fsRead (fsWrite fs p c) q = fsRead fs q := by
  induction fs with
  | nil => simp [fsWrite, fsRead, h, Ne.symm h]
  | cons r fs ih =>
      by_cases hr : r.1 = p
      · have hr2 : ¬r.1 = q := by rw [hr]; exact fun hh => h hh.symm
        simp [fsWrite, fsRead, hr, hr2, h, Ne.symm h]
      · by_cases hr2 : r.1 = q <;> simp [fsWrite, fsRead, hr, hr2, h, Ne.symm h, ih]

theorem string_append_cancel_left (a b c : String) (h : a ++ b = a ++ c) : b = c := by
  have hd : (a ++ b).data = (a ++ c).data := by rw [h]
  simp [String.data_append] at hd
  exact String.ext hd

/-! ## Claim theorems -/

/-- C7: every call to `list_tools` (and to `GET /system/tools`) returns
the descriptors in the fixed registration order qr-generator,
image-converter, image-compressor, and the endpoint's `count` field
equals the number of returned descriptors. -/
theorem tools_listed_in_registration_order :
    list_tools.map metaName =
      [some (.pyStr "qr-generator"), some (.pyStr "image-converter"),
       some (.pyStr "image-compressor")] ∧
    list_all_tools.tools = list_tools ∧
    list_all_tools.count = list_all_tools.tools.length :=
  ⟨rfl, rfl, rfl⟩

/-- C6: for every registered name, `tool_exists` is true and `get_tool`
returns a tool whose descriptor `name` equals the lookup key; for every
unregistered name, `get_tool` fails with the not-found error.  (All
registry operations are pure functions of the constant `TOOLS`; the
Python module never reassigns the dict after construction.) -/
theorem registry_lookup_consistent (name : String) :
    (tool_exists name = true →
      ∃ t, get_tool name = .ok t ∧ t.name = name) ∧
    (tool_exists name = false →
      get_tool name = .error ("Tool '" ++ name ++ "' not found")) := by
  constructor
  · intro h
    rw [tool_exists] at h
    rcases hf : List.find? (fun p => p.1 = name) TOOLS with _ | p
    · rw [hf] at h; simp at h
    · have hkey : p.1 = name := by simpa using List.find?_some hf
      have hmem : p ∈ TOOLS := List.mem_of_find?_eq_some hf
      have hname : p.2.name = p.1 := by
        simp only [TOOLS, List.mem_cons, List.not_mem_nil, or_false] at hmem
        rcases hmem with hmem | hmem | hmem <;> rw [hmem]  <;> rfl
      refine ⟨p.2, ?_, hname.trans hkey⟩
      simp [get_tool, hf]
  · intro h
    rw [tool_exists] at h
    rcases hf : List.find? (fun p => p.1 = name) TOOLS with _ | p
    · simp [get_tool, hf]
    · rw [hf] at h; simp at h

/-- C6 witness: the theorem applied to the registered name
"qr-generator". -/
theorem registry_lookup_consistent_witness :
    tool_exists "qr-generator" = true ∧
    ∃ t, get_tool "qr-generator" = .ok t ∧ t.name = "qr-generator" :=
  ⟨rfl, (registry_lookup_consistent "qr-generator").1 rfl⟩

/-- C3: a run request naming an unregistered tool produces the NotFound
classification — transport status 404 with the human-readable message —
for every request body and declared content type, because the registry
existence check precedes all body parsing. -/
theorem unknown_tool_is_404_before_parsing (st : Settings) (fs : Fs)
    (runImpl : ToolDef → Kwargs → Except ToolErr PyVal)
    (tool_name : String) (req : Request)
    (h : tool_exists tool_name = false) :
    run_tool_endpoint st fs runImpl tool_name req =
      .httpError 404 ("Tool '" ++ tool_name ++ "' not found") := by
  unfold run_tool_endpoint
  simp [h]

/-- C3 witness: the theorem applied to an unknown name and a body that
would not even parse. -/
theorem unknown_tool_is_404_before_parsing_witness :
    tool_exists "no-such-tool" = false ∧
    run_tool_endpoint defaultSettings [] (fun _ _ => .ok (.pyStr "x"))
        "no-such-tool" { content_type := "text/plain", body := .jsonMalformed } =
      .httpError 404 ("Tool '" ++ "no-such-tool" ++ "' not found") :=
  ⟨rfl, unknown_tool_is_404_before_parsing defaultSettings []
    (fun _ _ => .ok (.pyStr "x")) "no-such-tool"
    { content_type := "text/plain", body := .jsonMalformed } rfl⟩

/-- C1 counterexample: a JSON-kind tool returning a non-JSON-compatible
result (an opaque object) is NOT routed to an internal-shape error: the
dispatcher wraps it as `{"data": result}` and returns success, so the
claimed InternalContractViolation is not raised for the JSON half of the
claim. -/
theorem json_kind_result_not_shape_checked :
    jsonCompatible (.pyObj "PILImage") = false ∧
    dispatch_output "json" (.pyObj "PILImage") =
      .jsonOk (.pyDict [("data", .pyObj "PILImage")]) ∧
    isErrorOutcome (dispatch_output "json" (.pyObj "PILImage")) = false :=
  ⟨rfl, rfl, rfl⟩

/-- C1 amended: a FILE-kind tool whose result is not a two-element tuple
gets the 500 internal-shape error with the generic "Invalid tool output"
message; a JSON-kind tool's result is wrapped as `{"data": result}`
unconditionally, with no JSON-compatibility check. -/
theorem dispatch_output_contract (r : PyVal) :
    (isPair2 r = false →
      dispatch_output "file" r = .httpError 500 "Invalid tool output") ∧
    dispatch_output "json" r = .jsonOk (.pyDict [("data", r)]) := by
  constructor
  · intro h
    cases r with
    | pyTuple xs =>
        rcases xs with _ | ⟨a, _ | ⟨b, _ | ⟨c, rest⟩⟩⟩
        · rfl
        · cases a <;> rfl
        · simp [isPair2] at h
        · cases a <;> cases b <;> rfl
    | pyStr s => rfl
    | pyInt n => rfl
    | pyList xs => rfl
    | pyDict kvs => rfl
    | pyObj t => rfl
  · rfl

/-- C1 witness: the amended theorem applied to a FILE-kind run returning
a single string. -/
theorem dispatch_output_contract_witness :
    isPair2 (.pyStr "/tmp/out.png") = false ∧
    dispatch_output "file" (.pyStr "/tmp/out.png") =
      .httpError 500 "Invalid tool output" :=
  ⟨rfl, (dispatch_output_contract (.pyStr "/tmp/out.png")).1 rfl⟩

/-- C2 counterexample: an `ExecutionFailure` (`ToolExecutionException`)
is answered with status 500 whose detail is the exception's own message —
for the QR tool that message embeds the stringified internal cause — so
the response does not carry only a generic safe message and the detailed
cause IS returned to the caller. -/
theorem execution_failure_detail_returned :
    classify_run_error (.toolExecution (qr_failure_message "division by zero")) =
      (500, "Failed to generate QR code: division by zero") ∧
    pyIn "division by zero" (qr_failure_message "division by zero") = true ∧
    qr_failure_message "division by zero" ≠ "Tool execution failed" := by
  refine ⟨rfl, rfl, ?_⟩
  decide

/-- C2 amended: an `ExecutionFailure` maps to status 500 with the
exception's message as the response detail (for the QR tool, the message
embeds the stringified cause); only an unclassified exception gets the
fixed generic "Tool execution failed" detail. -/
theorem execution_failure_maps_to_500 (m : String) :
    classify_run_error (.toolExecution m) = (500, m) ∧
    classify_run_error (.toolExecution (qr_failure_message m)) =
      (500, "Failed to generate QR code: " ++ m) ∧
    classify_run_error (.unexpected m) = (500, "Tool execution failed") :=
  ⟨rfl, rfl, rfl⟩

/-- C9: evaluating the converter at a well-formed request — a saved input
path and an allowed target format — does not convert at all: the code
evaluates `input_path.file` on the string path it is given, so every run
fails with the AttributeError wrapped into `ToolExecutionException`,
whatever the Pillow codec (`ops`) would do.  The round-trip property
claimed in the spec therefore has no successful run to hold of. -/
theorem converter_always_attribute_error {α : Type} (ops : ImageOps α) :
    image_converter_run ops defaultSettings
      [("image_file_path", .pyStr "/tmp/tool-execution/image-converter/photo.png"),
       ("target_format", .pyStr "jpg")] =
      .error (.toolExecution
        "Failed to convert image: 'str' object has no attribute 'file'") := by
  rfl

/-- C10: `clean_filename` can return a name containing — indeed equal
to — `".."`: on input `".!."` the separator passes survive, the `".."`
removal finds nothing, and the character filter then deletes `'!'`,
merging the two dots.  Joined under the storage directory the result
names the parent directory. -/
theorem clean_filename_can_return_dotdot :
    clean_filename ".!." = .ok ".." ∧
    pyIn ".." ".." = true ∧
    "/tmp/tool-execution/qr-generator" ++ "/" ++ ".." =
      "/tmp/tool-execution/qr-generator/.." :=
  ⟨rfl, rfl, rfl⟩

/-- C4: after the multipart parts are processed, the shim rebinds a
`file_file_path` binding as `image_file_path` and removes the old key —
but only when `image_file_path` is absent; when `image_file_path` is
present the mapping passes through unchanged. -/
theorem shim_renames_file_field (m : Kwargs) :
    (dContains m "image_file_path" = true → applyShim m = m) ∧
    (dContains m "image_file_path" = false →
      ∀ v, dGet m "file_file_path" = some v →
        dGet (applyShim m) "image_file_path" = some v ∧
        dContains (applyShim m) "file_file_path" = false) := by
  constructor
  · intro h
    simp [applyShim, h]
  · intro h v hv
    unfold applyShim
    simp only [h, Bool.false_eq_true, if_false, hv]
    constructor
    · exact dGet_dSet_self ..
    · rw [dContains_dSet_of_ne _ _ _ _ (by decide)]
      exact dContains_dErase_self ..

/-- C4 witness: the theorem applied to a mapping holding only a generic
`file` upload and a form field. -/
theorem shim_renames_file_field_witness :
    dContains [(("file_file_path" : String), PyVal.pyStr "/tmp/x.png"),
      ("target_format", PyVal.pyStr "png")] "image_file_path" = false ∧
    dGet (applyShim [(("file_file_path" : String), PyVal.pyStr "/tmp/x.png"),
      ("target_format", PyVal.pyStr "png")]) "image_file_path" =
        some (.pyStr "/tmp/x.png") ∧
    dContains (applyShim [(("file_file_path" : String), PyVal.pyStr "/tmp/x.png"),
      ("target_format", PyVal.pyStr "png")]) "file_file_path" = false :=
  ⟨rfl,
   ((shim_renames_file_field [(("file_file_path" : String), PyVal.pyStr "/tmp/x.png"),
      ("target_format", PyVal.pyStr "png")]).2 rfl _ rfl).1,
   ((shim_renames_file_field [(("file_file_path" : String), PyVal.pyStr "/tmp/x.png"),
      ("target_format", PyVal.pyStr "png")]).2 rfl _ rfl).2⟩

/-- C5: the upload size check accepts a content length exactly equal to
the configured maximum and rejects any length at least one byte over it
with the `FileProcessing` classification, which the route maps to a
400-status response; the same boundary governs `save_uploaded_file`,
which runs the size check first. -/
theorem upload_size_boundary (st : Settings) (fs : Fs) (content : List Nat)
    (f cn : String) (sub : Option String)
    (hclean : clean_filename f = .ok cn) :
    validate_file_size st st.MAX_FILE_SIZE = .ok () ∧
    (∀ n, st.MAX_FILE_SIZE < n →
      validate_file_size st n =
        .error (.fileProcessing (fileSizeExceededMessage st)) ∧
      classify_run_error (.fileProcessing (fileSizeExceededMessage st)) =
        (400, fileSizeExceededMessage st)) ∧
    (content.length = st.MAX_FILE_SIZE →
      ∃ pfs, save_uploaded_file st fs content f sub = .ok pfs) ∧
    (st.MAX_FILE_SIZE < content.length →
      save_uploaded_file st fs content f sub =
        .error (.fileProcessing (fileSizeExceededMessage st))) := by
  refine ⟨?_, ?_, ?_, ?_⟩
  · simp [validate_file_size]
  · intro n hn
    exact ⟨by simp [validate_file_size, hn], rfl⟩
  · intro hlen
    have hv : validate_file_size st content.length = .ok () := by
      simp [validate_file_size, hlen]
    cases hs : save_uploaded_file st fs content f sub with
    | error e => simp [save_uploaded_file, hv, hclean] at hs
    | ok pfs => exact ⟨pfs, rfl⟩
  · intro hgt
    simp [save_uploaded_file, validate_file_size, hgt]

/-- C5 witness: with a configured maximum of 2 bytes, a 2-byte upload
saves and a 3-byte upload fails with the FileProcessing error. -/
theorem upload_size_boundary_witness :
    clean_filename "a.png" = .ok "a.png" ∧
    (∃ pfs, save_uploaded_file ⟨2, "/tmp/tool-execution", []⟩ [] [0, 0]
      "a.png" (some "qr-generator") = .ok pfs) ∧
    save_uploaded_file ⟨2, "/tmp/tool-execution", []⟩ [] [0, 0, 0]
      "a.png" (some "qr-generator") =
      .error (.fileProcessing
        (fileSizeExceededMessage ⟨2, "/tmp/tool-execution", []⟩)) :=
  ⟨rfl,
   (upload_size_boundary ⟨2, "/tmp/tool-execution", []⟩ [] [0, 0] "a.png"
     "a.png" (some "qr-generator") rfl).2.2.1 rfl,
   (upload_size_boundary ⟨2, "/tmp/tool-execution", []⟩ [] [0, 0, 0] "a.png"
     "a.png" (some "qr-generator") rfl).2.2.2 (by decide)⟩

/-- C8 counterexample: two requests uploading under the same filename are
assigned the SAME storage path, and the second write replaces the first
request's bytes — storage paths are not distinct and files of other
requests are overwritten. -/
theorem same_upload_name_reuses_path :
    save_uploaded_file defaultSettings [] [1] "photo.png" (some "image-converter") =
      .ok ("/tmp/tool-execution/image-converter/photo.png",
        [("/tmp/tool-execution/image-converter/photo.png", [1])]) ∧
    save_uploaded_file defaultSettings
        [("/tmp/tool-execution/image-converter/photo.png", [1])]
        [2] "photo.png" (some "image-converter") =
      .ok ("/tmp/tool-execution/image-converter/photo.png",
        [("/tmp/tool-execution/image-converter/photo.png", [2])]) ∧
    fsRead [("/tmp/tool-execution/image-converter/photo.png", [2])]
        "/tmp/tool-execution/image-converter/photo.png" ≠ some [1] :=
  ⟨rfl, rfl, by decide⟩

/-- C8 amended: upload paths are a deterministic function of the tool
namespace and the cleaned filename — distinct cleaned filenames in a
namespace give distinct paths, a save never removes or alters any path
other than its own target, and the saved bytes are found at the returned
path — but two requests with the same (cleaned) upload filename share one
path, the second overwriting the first. -/
theorem save_paths_deterministic_no_delete (st : Settings) (fs : Fs)
    (c1 c2 : List Nat) (f1 f2 : String) (sub : Option String)
    (p1 p2 : String) (fs1 fs2 : Fs)
    (h1 : save_uploaded_file st fs c1 f1 sub = .ok (p1, fs1))
    (h2 : save_uploaded_file st fs1 c2 f2 sub = .ok (p2, fs2)) :
    (clean_filename f1 ≠ clean_filename f2 → p1 ≠ p2) ∧
    fsRead fs1 p1 = some c1 ∧
    (∀ q, q ≠ p2 → fsRead fs2 q = fsRead fs1 q) := by
  rcases hv1 : validate_file_size st c1.length with e | u
  · simp [save_uploaded_file, hv1] at h1
  rcases hc1 : clean_filename f1 with e | n1
  · simp [save_uploaded_file, hv1, hc1] at h1
  rcases hv2 : validate_file_size st c2.length with e | u2
  · simp [save_uploaded_file, hv2] at h2
  rcases hc2 : clean_filename f2 with e | n2
  · simp [save_uploaded_file, hv2, hc2] at h2
  simp only [save_uploaded_file, hv1, hc1, Except.ok.injEq, Prod.mk.injEq] at h1
  simp only [save_uploaded_file, hv2, hc2, Except.ok.injEq, Prod.mk.injEq] at h2
  obtain ⟨hp1, hfs1⟩ := h1
  obtain ⟨hp2, hfs2⟩ := h2
  refine ⟨?_, ?_, ?_⟩
  · intro hne hpeq
    apply hne
    have hn : n1 = n2 :=
      string_append_cancel_left _ _ _ (hp1.trans (hpeq.trans hp2.symm))
    rw [hn]
  · rw [← hfs1, ← hp1]
    exact fsRead_fsWrite_self ..
  · intro q hq
    rw [← hp2] at hq
    rw [← hfs2]
    exact fsRead_fsWrite_other _ _ _ _ hq

/-- C8 amended witness: two uploads with distinct filenames in the same
namespace land on distinct paths. -/
theorem save_paths_deterministic_no_delete_witness :
    save_uploaded_file defaultSettings [] [1] "a.png" (some "qr-generator") =
      .ok ("/tmp/tool-execution/qr-generator/a.png",
        [("/tmp/tool-execution/qr-generator/a.png", [1])]) ∧
    save_uploaded_file defaultSettings
        [("/tmp/tool-execution/qr-generator/a.png", [1])]
        [2] "b.png" (some "qr-generator") =
      .ok ("/tmp/tool-execution/qr-generator/b.png",
        [("/tmp/tool-execution/qr-generator/a.png", [1]),
         ("/tmp/tool-execution/qr-generator/b.png", [2])]) ∧
    ("/tmp/tool-execution/qr-generator/a.png" : String) ≠
      "/tmp/tool-execution/qr-generator/b.png" :=
  ⟨rfl, rfl,
   (save_paths_deterministic_no_delete defaultSettings [] [1] [2] "a.png"
      "b.png" (some "qr-generator") _ _ _ _ rfl rfl).1
     (by
       intro h
       have h2 : (Except.ok "a.png" : Except ToolErr String) = .ok "b.png" := h
       injection h2 with h3
       exact absurd h3 (by decide))⟩

end ToolPlatform
